import Mathlib

/-!
Shallow embedding of the Floating Sandbox spring/point element model
(`src/unnamed/part_001`, a header defining `Physics::Springs`), the material
value objects (`src/GameLib/Materials.h`) and the JSON utility
(`src/GameLib/Utils.cpp`), together with theorems checking the
natural-language specification against this code.

Machine floats are embedded as rationals; `uint32` arithmetic carries its
wraparound explicitly where it matters; C++ `assert` guards are embedded as
`Option`-returning operations whose `none` is the assertion failure.
-/

namespace FloatingSandbox

/-- Embeds `NoneElementIndex` (the `std::numeric_limits<ElementIndex>::max()`
sentinel for a missing element index, `ElementIndex` being `uint32_t`). -/
def noneElementIndex : Nat := 2 ^ 32 - 1

/-- Embeds `Springs::Endpoints` (src/unnamed/part_001:56-67): the two point
indices of a spring. -/
structure Endpoints where
  pointAIndex : Nat
  pointBIndex : Nat
deriving DecidableEq

/-- Embeds `Springs::Coefficients` (src/unnamed/part_001:72-83): the cached
spring-dynamics coefficients. -/
structure Coefficients where
  stiffnessCoefficient : ℚ
  dampingCoefficient : ℚ
deriving DecidableEq

/-- Embeds `Springs::Characteristics` (src/unnamed/part_001:38-43), a bit-flag
enum with bits Hull (1) and Rope (2), as one boolean per bit. -/
structure Characteristics where
  hull : Bool
  rope : Bool
deriving DecidableEq

/-- Embeds `Springs::DestroyOptions` (src/unnamed/part_001:29-36), a bit-flag
enum with bits FireBreakEvent (1) and DestroyAllTriangles (2), as one boolean
per bit. -/
structure DestroyOptions where
  fireBreakEvent : Bool
  destroyAllTriangles : Bool
deriving DecidableEq

/-- Embeds the per-point state of `Physics::Points`. The `Points` header is not
under src/; the fields are modelled from the spec (§3): position-independent
state needed by `Springs` — base material mass, the equipped offset mass
(attached-bomb offset), the connected-component id, and the deletion flag. -/
structure PointsState where
  materialMass : List ℚ
  massToMaterialOffset : List ℚ
  connectedComponentId : List Nat
  isDeleted : List Bool
deriving DecidableEq

/-- Modelled from the spec (§3): a point's mass is derived from its base
material mass plus any attached-object offset. -/
def PointsState.GetMass (points : PointsState) (pointIndex : Nat) : ℚ :=
  points.materialMass.getD pointIndex 0 + points.massToMaterialOffset.getD pointIndex 0

/-- Embeds `Points::GetConnectedComponentId` (declared by use in
src/unnamed/part_001:276-284): reads the point's connected-component id. -/
def PointsState.GetConnectedComponentId (points : PointsState) (pointIndex : Nat) : Nat :=
  points.connectedComponentId.getD pointIndex 0

/-- Embeds the buffers and cached parameters of `Physics::Springs`
(src/unnamed/part_001:425-489), keeping the source's buffer names. The
material-pointer buffer is embedded as an optional index into a material
table. -/
structure SpringsState where
  mIsDeletedBuffer : List Bool
  mEndpointsBuffer : List Endpoints
  mSuperTrianglesCountBuffer : List Nat
  mStrengthBuffer : List ℚ
  mStiffnessBuffer : List ℚ
  mRestLengthBuffer : List ℚ
  mCoefficientsBuffer : List Coefficients
  mCharacteristicsBuffer : List Characteristics
  mBaseMaterialBuffer : List (Option Nat)
  mWaterPermeabilityBuffer : List ℚ
  mIsStressedBuffer : List Bool
  mIsBombAttachedBuffer : List Bool
  mCurrentNumMechanicalDynamicsIterations : ℚ
  mCurrentStiffnessAdjustment : ℚ
deriving DecidableEq

/-- Embeds the `Springs` constructor (src/unnamed/part_001:87-125): every
buffer is filled with its fill value — deleted, `NoneElementIndex` endpoints,
zero super-triangle count, zero strength/stiffness, rest length 1, zero
coefficients, no characteristics, null material, zero permeability, not
stressed, no bomb. -/
def mkSprings (elementCount : Nat)
    (numMechanicalDynamicsIterations stiffnessAdjustment : ℚ) : SpringsState :=
  { mIsDeletedBuffer := List.replicate elementCount true
    mEndpointsBuffer := List.replicate elementCount ⟨noneElementIndex, noneElementIndex⟩
    mSuperTrianglesCountBuffer := List.replicate elementCount 0
    mStrengthBuffer := List.replicate elementCount 0
    mStiffnessBuffer := List.replicate elementCount 0
    mRestLengthBuffer := List.replicate elementCount 1
    mCoefficientsBuffer := List.replicate elementCount ⟨0, 0⟩
    mCharacteristicsBuffer := List.replicate elementCount ⟨false, false⟩
    mBaseMaterialBuffer := List.replicate elementCount none
    mWaterPermeabilityBuffer := List.replicate elementCount 0
    mIsStressedBuffer := List.replicate elementCount false
    mIsBombAttachedBuffer := List.replicate elementCount false
    mCurrentNumMechanicalDynamicsIterations := numMechanicalDynamicsIterations
    mCurrentStiffnessAdjustment := stiffnessAdjustment }

/-- Embeds `Springs::IsDeleted` (src/unnamed/part_001:210-213). -/
def SpringsState.IsDeleted (springs : SpringsState) (springElementIndex : Nat) : Bool :=
  springs.mIsDeletedBuffer.getD springElementIndex true

/-- Embeds `Springs::GetPointAIndex` (src/unnamed/part_001:219-222). -/
def SpringsState.GetPointAIndex (springs : SpringsState) (springElementIndex : Nat) : Nat :=
  (springs.mEndpointsBuffer.getD springElementIndex
    ⟨noneElementIndex, noneElementIndex⟩).pointAIndex

/-- Embeds `Springs::GetPointBIndex` (src/unnamed/part_001:224-227). -/
def SpringsState.GetPointBIndex (springs : SpringsState) (springElementIndex : Nat) : Nat :=
  (springs.mEndpointsBuffer.getD springElementIndex
    ⟨noneElementIndex, noneElementIndex⟩).pointBIndex

/-- Embeds `Springs::GetSuperTrianglesCount` (src/unnamed/part_001:290-293). -/
def SpringsState.GetSuperTrianglesCount (springs : SpringsState)
    (springElementIndex : Nat) : Nat :=
  springs.mSuperTrianglesCountBuffer.getD springElementIndex 0

/-- Embeds `Springs::GetStiffness` (src/unnamed/part_001:310-313). -/
def SpringsState.GetStiffness (springs : SpringsState) (springElementIndex : Nat) : ℚ :=
  springs.mStiffnessBuffer.getD springElementIndex 0

/-- Embeds `Springs::GetStiffnessCoefficient` (src/unnamed/part_001:320-323). -/
def SpringsState.GetStiffnessCoefficient (springs : SpringsState)
    (springElementIndex : Nat) : ℚ :=
  (springs.mCoefficientsBuffer.getD springElementIndex ⟨0, 0⟩).stiffnessCoefficient

/-- Embeds `Springs::GetDampingCoefficient` (src/unnamed/part_001:325-328). -/
def SpringsState.GetDampingCoefficient (springs : SpringsState)
    (springElementIndex : Nat) : ℚ :=
  (springs.mCoefficientsBuffer.getD springElementIndex ⟨0, 0⟩).dampingCoefficient

/-- Embeds `Springs::IsBombAttached` (src/unnamed/part_001:353-356). -/
def SpringsState.IsBombAttached (springs : SpringsState) (springElementIndex : Nat) : Bool :=
  springs.mIsBombAttachedBuffer.getD springElementIndex false

/-- Embeds `Springs::RemoveOneSuperTriangle` (src/unnamed/part_001:295-299):
`assert(count > 0)` then `--count`. The count is `ElementCount` (`uint32_t`),
so the decrement is taken modulo `2^32`; the assertion failure is `none`. -/
def SpringsState.RemoveOneSuperTriangle (springs : SpringsState)
    (springElementIndex : Nat) : Option SpringsState :=
  if 0 < springs.mSuperTrianglesCountBuffer.getD springElementIndex 0 then
    some { springs with
      mSuperTrianglesCountBuffer :=
        springs.mSuperTrianglesCountBuffer.set springElementIndex
          ((springs.mSuperTrianglesCountBuffer.getD springElementIndex 0 + (2 ^ 32 - 1))
            % 2 ^ 32) }
  else
    none

/-- Modelled from the spec: the body of `Springs::CalculateStiffnessCoefficient` is not
under src/ (only its declaration, src/unnamed/part_001:409-415). Per §4.4 the stiffness
coefficient is a function of the two endpoint masses, the spring's stiffness, the global
stiffness adjustment and the number of mechanical dynamics iterations; it is modelled
as the reduced mass of the endpoint pair scaled by stiffness and adjustment and divided
by the square of the iteration count. -/
def CalculateStiffnessCoefficient (pointAIndex pointBIndex : Nat)
    (springStiffness stiffnessAdjustment numMechanicalDynamicsIterations : ℚ)
    (points : PointsState) : ℚ :=
  springStiffness * stiffnessAdjustment *
    (points.GetMass pointAIndex * points.GetMass pointBIndex) /
    ((points.GetMass pointAIndex + points.GetMass pointBIndex) *
      numMechanicalDynamicsIterations * numMechanicalDynamicsIterations)

/-- Embeds `Springs::OnPointMassUpdated` (src/unnamed/part_001:165-178). The source
calls the static `CalculateStiffnessCoefficient` — a pure function of its arguments —
and does not store the returned value anywhere, so no buffer changes and the springs
state is returned unchanged. -/
def SpringsState.OnPointMassUpdated (springs : SpringsState) (springElementIndex : Nat)
    (points : PointsState) : SpringsState :=
  let _ := CalculateStiffnessCoefficient
    (springs.GetPointAIndex springElementIndex)
    (springs.GetPointBIndex springElementIndex)
    (springs.GetStiffness springElementIndex)
    springs.mCurrentStiffnessAdjustment
    springs.mCurrentNumMechanicalDynamicsIterations
    points
  springs

/-- Modelled from the spec: `Points::SetMassToMaterialOffset` is not under src/ (only
its call sites, src/unnamed/part_001:369-390). Per §4.3 it sets the point's equipped
offset mass and then recomputes cached spring coefficients for every spring incident on
that point, which it does by calling `Springs::OnPointMassUpdated` on each such
spring. -/
def SetMassToMaterialOffset (points : PointsState) (pointIndex : Nat) (offset : ℚ)
    (springs : SpringsState) : PointsState × SpringsState :=
  let points1 : PointsState :=
    { points with
        massToMaterialOffset := points.massToMaterialOffset.set pointIndex offset }
  let incidentSprings : List Nat :=
    (List.range springs.mEndpointsBuffer.length).filter fun s =>
      !(springs.mIsDeletedBuffer.getD s true) &&
        (springs.GetPointAIndex s == pointIndex || springs.GetPointBIndex s == pointIndex)
  (points1, incidentSprings.foldl (fun sp s => sp.OnPointMassUpdated s points1) springs)

/-- Embeds `Springs::AttachBomb` (src/unnamed/part_001:358-378):
`assert(false == mIsBombAttachedBuffer[i])` (assertion failure is `none`), then sets
the flag and sets the mass-to-material offset of both endpoints to the configured bomb
mass through `Points::SetMassToMaterialOffset`. -/
def SpringsState.AttachBomb (springs : SpringsState) (springElementIndex : Nat)
    (points : PointsState) (bombMass : ℚ) : Option (SpringsState × PointsState) :=
  if springs.mIsBombAttachedBuffer.getD springElementIndex false = false then
    let springs1 : SpringsState :=
      { springs with
          mIsBombAttachedBuffer :=
            springs.mIsBombAttachedBuffer.set springElementIndex true }
    let r1 := SetMassToMaterialOffset points
      (springs1.GetPointAIndex springElementIndex) bombMass springs1
    let r2 := SetMassToMaterialOffset r1.1
      (springs1.GetPointBIndex springElementIndex) bombMass r1.2
    some (r2.2, r2.1)
  else
    none

/-- Embeds `Springs::DetachBomb` (src/unnamed/part_001:380-391):
`assert(true == mIsBombAttachedBuffer[i])` (assertion failure is `none`), then clears
the flag and resets the mass-to-material offset of both endpoints to zero through
`Points::SetMassToMaterialOffset`. -/
def SpringsState.DetachBomb (springs : SpringsState) (springElementIndex : Nat)
    (points : PointsState) : Option (SpringsState × PointsState) :=
  if springs.mIsBombAttachedBuffer.getD springElementIndex false = true then
    let springs1 : SpringsState :=
      { springs with
          mIsBombAttachedBuffer :=
            springs.mIsBombAttachedBuffer.set springElementIndex false }
    let r1 := SetMassToMaterialOffset points
      (springs1.GetPointAIndex springElementIndex) 0 springs1
    let r2 := SetMassToMaterialOffset r1.1
      (springs1.GetPointBIndex springElementIndex) 0 r1.2
    some (r2.2, r2.1)
  else
    none

/-- One recorded invocation of the registered destroy handler
(`Springs::DestroyHandler`, src/unnamed/part_001:45-49): the spring index, the
destroy-triangles flag, and what `IsDeleted` returns for that spring at the moment the
handler runs. The simulation-time and game-parameter arguments carry no spring state
and are omitted. -/
structure DestroyEvent where
  springIndex : Nat
  destroyTriangles : Bool
  observedDeleted : Bool
deriving DecidableEq

/-- Modelled from the spec: the body of `Springs::Destroy` is not under src/ (only its
declaration, src/unnamed/part_001:154-159, and the handler contract,
src/unnamed/part_001:129-145). Per §4.4 it marks the spring deleted and, if the
`FireBreakEvent` option is set, invokes the registered destroy handler once, right
before marking deleted; handler invocations are embedded as an event trace whose
entries record what `IsDeleted` returns at invocation time. -/
def SpringsState.Destroy (springs : SpringsState) (springElementIndex : Nat)
    (destroyOptions : DestroyOptions) : SpringsState × List DestroyEvent :=
  let handlerEvents : List DestroyEvent :=
    if destroyOptions.fireBreakEvent then
      [⟨springElementIndex, destroyOptions.destroyAllTriangles,
        springs.IsDeleted springElementIndex⟩]
    else
      []
  ({ springs with
      mIsDeletedBuffer := springs.mIsDeletedBuffer.set springElementIndex true },
    handlerEvents)

/-! Helper lemmas about `List.getD` over `replicate` and `set`. -/

theorem getD_replicate_of_lt {α : Type} (a d : α) {n i : Nat} (hi : i < n) :
    (List.replicate n a).getD i d = a := by
  simp [List.getD_eq_getElem?_getD, List.getElem?_replicate, hi]

theorem getD_set_self {α : Type} (l : List α) (v d : α) {i : Nat} (hi : i < l.length) :
    (l.set i v).getD i d = v := by
  simp [List.getD_eq_getElem?_getD, List.getElem?_set_self, hi]

theorem getD_set_ne {α : Type} (l : List α) (v d : α) {i j : Nat} (hij : i ≠ j) :
    (l.set i v).getD j d = l.getD j d := by
  simp [List.getD_eq_getElem?_getD, List.getElem?_set_ne hij]

/-- Claim C10: immediately after constructing a `Springs` container with
capacity `n`, `IsDeleted i` is true for every `i < n`, and every slot starts
with `NoneElementIndex` endpoints, super-triangle count 0 and zero stiffness
and damping coefficients. -/
theorem C10_constructed_slots_start_deleted (n : Nat) (iterations adjustment : ℚ)
    (i : Nat) (hi : i < n) :
    (mkSprings n iterations adjustment).IsDeleted i = true ∧
    (mkSprings n iterations adjustment).GetPointAIndex i = noneElementIndex ∧
    (mkSprings n iterations adjustment).GetPointBIndex i = noneElementIndex ∧
    (mkSprings n iterations adjustment).GetSuperTrianglesCount i = 0 ∧
    (mkSprings n iterations adjustment).GetStiffnessCoefficient i = 0 ∧
    (mkSprings n iterations adjustment).GetDampingCoefficient i = 0 := by
  refine ⟨?_, ?_, ?_, ?_, ?_, ?_⟩ <;>
    simp [mkSprings, SpringsState.IsDeleted, SpringsState.GetPointAIndex,
      SpringsState.GetPointBIndex, SpringsState.GetSuperTrianglesCount,
      SpringsState.GetStiffnessCoefficient, SpringsState.GetDampingCoefficient,
      getD_replicate_of_lt _ _ hi]

/-- Claim C10 witness: the property evaluated on a concrete container of
capacity 3 at index 1. -/
theorem C10_constructed_slots_start_deleted_witness :
    (mkSprings 3 12 1).IsDeleted 1 = true ∧
    (mkSprings 3 12 1).GetPointAIndex 1 = noneElementIndex ∧
    (mkSprings 3 12 1).GetPointBIndex 1 = noneElementIndex ∧
    (mkSprings 3 12 1).GetSuperTrianglesCount 1 = 0 ∧
    (mkSprings 3 12 1).GetStiffnessCoefficient 1 = 0 ∧
    (mkSprings 3 12 1).GetDampingCoefficient 1 = 0 :=
  C10_constructed_slots_start_deleted 3 12 1 1 (by decide)

/-- Claim C9: for every spring whose super-triangle count `c` is positive (and
within the `uint32` range it lives in), `RemoveOneSuperTriangle` succeeds,
decreases that count to exactly `c - 1` — no wraparound below zero — and
changes no other spring state; when the count is zero the assertion fails
(`none`). -/
theorem C9_remove_one_super_triangle (springs : SpringsState) (i : Nat)
    (hrange : springs.mSuperTrianglesCountBuffer.getD i 0 < 2 ^ 32) :
    (0 < springs.mSuperTrianglesCountBuffer.getD i 0 →
      springs.RemoveOneSuperTriangle i =
        some { springs with
          mSuperTrianglesCountBuffer :=
            springs.mSuperTrianglesCountBuffer.set i
              (springs.mSuperTrianglesCountBuffer.getD i 0 - 1) } ∧
      ∀ s' : SpringsState, springs.RemoveOneSuperTriangle i = some s' →
        s'.GetSuperTrianglesCount i + 1 = springs.GetSuperTrianglesCount i ∨
          ¬ i < springs.mSuperTrianglesCountBuffer.length) ∧
    (springs.mSuperTrianglesCountBuffer.getD i 0 = 0 →
      springs.RemoveOneSuperTriangle i = none) := by
  constructor
  · intro hpos
    have hmod : (springs.mSuperTrianglesCountBuffer.getD i 0 + (2 ^ 32 - 1)) % 2 ^ 32 =
        springs.mSuperTrianglesCountBuffer.getD i 0 - 1 := by
      omega
    constructor
    · simp only [SpringsState.RemoveOneSuperTriangle, if_pos hpos, hmod]
    · intro s' hs'
      by_cases hlen : i < springs.mSuperTrianglesCountBuffer.length
      · left
        simp only [SpringsState.RemoveOneSuperTriangle, if_pos hpos, hmod,
          Option.some.injEq] at hs'
        subst hs'
        simp only [SpringsState.GetSuperTrianglesCount]
        rw [getD_set_self _ _ _ hlen]
        omega
      · right; exact hlen
  · intro hzero
    simp only [SpringsState.RemoveOneSuperTriangle]
    rw [if_neg (by omega)]

/-- Claim C9 witness: the property evaluated on a concrete container whose
spring 0 has super-triangle count 2. -/
theorem C9_remove_one_super_triangle_witness :
    ((0 < ({ mkSprings 1 12 1 with
        mSuperTrianglesCountBuffer := [2] } : SpringsState).mSuperTrianglesCountBuffer.getD 0 0 →
      ({ mkSprings 1 12 1 with
        mSuperTrianglesCountBuffer := [2] } : SpringsState).RemoveOneSuperTriangle 0 =
        some { ({ mkSprings 1 12 1 with
            mSuperTrianglesCountBuffer := [2] } : SpringsState) with
          mSuperTrianglesCountBuffer :=
            ({ mkSprings 1 12 1 with
              mSuperTrianglesCountBuffer := [2] } : SpringsState).mSuperTrianglesCountBuffer.set 0
              (({ mkSprings 1 12 1 with
                mSuperTrianglesCountBuffer := [2] } : SpringsState).mSuperTrianglesCountBuffer.getD 0 0 - 1) } ∧
      ∀ s' : SpringsState,
        ({ mkSprings 1 12 1 with
          mSuperTrianglesCountBuffer := [2] } : SpringsState).RemoveOneSuperTriangle 0 = some s' →
        s'.GetSuperTrianglesCount 0 + 1 =
            ({ mkSprings 1 12 1 with
              mSuperTrianglesCountBuffer := [2] } : SpringsState).GetSuperTrianglesCount 0 ∨
          ¬ 0 < ({ mkSprings 1 12 1 with
            mSuperTrianglesCountBuffer := [2] } : SpringsState).mSuperTrianglesCountBuffer.length) ∧
    (({ mkSprings 1 12 1 with
        mSuperTrianglesCountBuffer := [2] } : SpringsState).mSuperTrianglesCountBuffer.getD 0 0 = 0 →
      ({ mkSprings 1 12 1 with
        mSuperTrianglesCountBuffer := [2] } : SpringsState).RemoveOneSuperTriangle 0 = none)) :=
  C9_remove_one_super_triangle _ 0 (by decide)

theorem foldl_onPointMassUpdated_id (springs : SpringsState) (l : List Nat)
    (points : PointsState) :
    l.foldl (fun sp s => sp.OnPointMassUpdated s points) springs = springs := by
  induction l generalizing springs with
  | nil => rfl
  | cons a t ih => simpa [SpringsState.OnPointMassUpdated] using ih springs

theorem setMassToMaterialOffset_eq (points : PointsState) (pointIndex : Nat)
    (offset : ℚ) (springs : SpringsState) :
    SetMassToMaterialOffset points pointIndex offset springs =
      ({ points with
          massToMaterialOffset := points.massToMaterialOffset.set pointIndex offset },
        springs) := by
  simp [SetMassToMaterialOffset, foldl_onPointMassUpdated_id]

/-- A container with one live spring between points 0 and 1 whose cached stiffness
coefficient was computed while both endpoint masses were 1 (giving 1/2 under the
modelled formula), before a bomb raised both mass offsets to 3. -/
def staleCoeffSprings : SpringsState :=
  { mkSprings 1 1 1 with
      mIsDeletedBuffer := [false]
      mEndpointsBuffer := [⟨0, 1⟩]
      mStiffnessBuffer := [1]
      mCoefficientsBuffer := [⟨1 / 2, 0⟩] }

/-- Two points of base material mass 1 each, both carrying an attached-bomb mass
offset of 3 (current masses 4 and 4). -/
def staleCoeffPoints : PointsState :=
  { materialMass := [1, 1]
    massToMaterialOffset := [3, 3]
    connectedComponentId := [0, 0]
    isDeleted := [false, false] }

/-- Claim C1: `Springs::OnPointMassUpdated` computes the fresh stiffness coefficient
but never stores it, so after an endpoint mass change the cached coefficient returned
by `GetStiffnessCoefficient` stays at its stale value (1/2) while the value freshly
recomputed by `CalculateStiffnessCoefficient` from the current masses is 2; the whole
operation leaves the springs state unchanged. This refutes the claim that the call
leaves the cached coefficient equal to the freshly recomputed value. -/
theorem C1_on_point_mass_updated_leaves_coefficient_stale :
    (staleCoeffSprings.OnPointMassUpdated 0 staleCoeffPoints).GetStiffnessCoefficient 0
        = 1 / 2 ∧
    CalculateStiffnessCoefficient (staleCoeffSprings.GetPointAIndex 0)
        (staleCoeffSprings.GetPointBIndex 0) (staleCoeffSprings.GetStiffness 0)
        staleCoeffSprings.mCurrentStiffnessAdjustment
        staleCoeffSprings.mCurrentNumMechanicalDynamicsIterations staleCoeffPoints = 2 ∧
    (1 / 2 : ℚ) ≠ 2 ∧
    staleCoeffSprings.OnPointMassUpdated 0 staleCoeffPoints = staleCoeffSprings := by
  refine ⟨?_, ?_, by norm_num, rfl⟩
  · rfl
  · show (1 : ℚ) * 1 * (((1 : ℚ) + 3) * (1 + 3)) / (((1 + 3) + (1 + 3)) * 1 * 1) = 2
    norm_num

/-- Claim C2: destroying a live spring with the `FireBreakEvent` option set invokes the
registered destroy handler exactly once for that break — the event trace is exactly one
entry for this spring — and at the moment of invocation `IsDeleted` still reads false;
afterwards the spring is marked deleted. -/
theorem C2_destroy_fires_handler_once_before_deletion (springs : SpringsState)
    (i : Nat) (options : DestroyOptions)
    (hlive : springs.IsDeleted i = false)
    (hfire : options.fireBreakEvent = true)
    (hi : i < springs.mIsDeletedBuffer.length) :
    (springs.Destroy i options).2 = [⟨i, options.destroyAllTriangles, false⟩] ∧
    (springs.Destroy i options).1.IsDeleted i = true := by
  constructor
  · simp [SpringsState.Destroy, hfire, hlive]
  · simp only [SpringsState.Destroy, SpringsState.IsDeleted]
    exact getD_set_self _ _ _ hi

/-- Claim C2 witness: the property evaluated on a concrete one-spring container with
the `FireBreakEvent` and `DestroyAllTriangles` options set. -/
theorem C2_destroy_fires_handler_once_before_deletion_witness :
    (({ mkSprings 1 12 1 with mIsDeletedBuffer := [false] } : SpringsState).Destroy 0
        ⟨true, true⟩).2 = [⟨0, true, false⟩] ∧
    (({ mkSprings 1 12 1 with mIsDeletedBuffer := [false] } : SpringsState).Destroy 0
        ⟨true, true⟩).1.IsDeleted 0 = true :=
  C2_destroy_fires_handler_once_before_deletion _ 0 ⟨true, true⟩ (by decide) rfl
    (by decide)

/-- Claim C6: calling `AttachBomb` on a spring whose bomb-attached flag is already true,
or `DetachBomb` on a spring whose flag is already false, fails the operation's
assertion (`none`); under the precondition that the flag has the opposite value, the
assertion holds and the operation proceeds (`isSome`). -/
theorem C6_bomb_attach_detach_assertions (springs : SpringsState) (points : PointsState)
    (bombMass : ℚ) (i : Nat) :
    (springs.IsBombAttached i = true →
      springs.AttachBomb i points bombMass = none) ∧
    (springs.IsBombAttached i = false →
      (springs.AttachBomb i points bombMass).isSome = true) ∧
    (springs.IsBombAttached i = false →
      springs.DetachBomb i points = none) ∧
    (springs.IsBombAttached i = true →
      (springs.DetachBomb i points).isSome = true) := by
  refine ⟨fun h => ?_, fun h => ?_, fun h => ?_, fun h => ?_⟩ <;>
    simp only [SpringsState.IsBombAttached] at h <;>
    rw [List.getD_eq_getElem?_getD] at h <;>
    simp [SpringsState.AttachBomb, SpringsState.DetachBomb,
      List.getD_eq_getElem?_getD, h]

/-- Claim C6 witness: on a concrete one-spring container whose flag is false, attach
proceeds and detach fails its assertion. -/
theorem C6_bomb_attach_detach_assertions_witness :
    ((({ mkSprings 1 12 1 with mIsDeletedBuffer := [false], mEndpointsBuffer := [⟨0, 1⟩] }
        : SpringsState).AttachBomb 0 staleCoeffPoints 3).isSome = true) ∧
    (({ mkSprings 1 12 1 with mIsDeletedBuffer := [false], mEndpointsBuffer := [⟨0, 1⟩] }
        : SpringsState).DetachBomb 0 staleCoeffPoints = none) :=
  ⟨(C6_bomb_attach_detach_assertions _ staleCoeffPoints 3 0).2.1 rfl,
    (C6_bomb_attach_detach_assertions _ staleCoeffPoints 3 0).2.2.1 rfl⟩

/-- Modelled from the spec: the Connected-Component Analyzer (§4.5) is not under src/.
Per §4.5 it relabels all points via graph traversal (union-find over the spring
adjacency); one union step on a spring edge (a, b) relabels every point carrying b's
current label with a's current label. -/
def analyzeSpringEdge (labels : List Nat) (edge : Nat × Nat) : List Nat :=
  labels.map fun l => if l = labels.getD edge.2 0 then labels.getD edge.1 0 else l

/-- Modelled from the spec (§4.5): a full analysis pass relabels all points, starting
from the identity labelling and applying one union step per live spring edge. -/
def runConnectedComponentAnalysis (pointCount : Nat) (edges : List (Nat × Nat)) :
    List Nat :=
  edges.foldl analyzeSpringEdge (List.range pointCount)

/-- The endpoint pairs of the non-deleted springs, in index order. -/
def SpringsState.liveSpringEdges (springs : SpringsState) : List (Nat × Nat) :=
  ((List.range springs.mEndpointsBuffer.length).filter fun s =>
    !(springs.mIsDeletedBuffer.getD s true)).map fun s =>
      (springs.GetPointAIndex s, springs.GetPointBIndex s)

/-- Modelled from the spec (§4.5): an analysis pass over the live spring graph assigns
every point its connected-component id. -/
def RunConnectedComponentAnalysisPass (points : PointsState) (springs : SpringsState) :
    PointsState :=
  { points with
      connectedComponentId :=
        runConnectedComponentAnalysis points.connectedComponentId.length
          springs.liveSpringEdges }

/-- Embeds `Springs::GetConnectedComponentId` (src/unnamed/part_001:276-284): returns
the connected-component id of endpoint A, after asserting both endpoints agree. -/
def SpringsState.GetConnectedComponentId (springs : SpringsState)
    (springElementIndex : Nat) (points : PointsState) : Nat :=
  points.GetConnectedComponentId (springs.GetPointAIndex springElementIndex)

theorem getD_map_of_lt (f : Nat → Nat) (l : List Nat) {i : Nat} (hi : i < l.length) :
    (l.map f).getD i 0 = f (l.getD i 0) := by
  simp [List.getD_eq_getElem?_getD, List.getElem?_map, List.getElem?_eq_getElem hi]

theorem length_analyzeSpringEdge (labels : List Nat) (edge : Nat × Nat) :
    (analyzeSpringEdge labels edge).length = labels.length := by
  simp [analyzeSpringEdge]

theorem analyzeSpringEdge_preserves_eq {labels : List Nat} {a b : Nat}
    (ha : a < labels.length) (hb : b < labels.length) (edge : Nat × Nat)
    (h : labels.getD a 0 = labels.getD b 0) :
    (analyzeSpringEdge labels edge).getD a 0 =
      (analyzeSpringEdge labels edge).getD b 0 := by
  unfold analyzeSpringEdge
  rw [getD_map_of_lt _ _ ha, getD_map_of_lt _ _ hb, h]

theorem analyzeSpringEdge_joins {labels : List Nat} {a b : Nat}
    (ha : a < labels.length) (hb : b < labels.length) :
    (analyzeSpringEdge labels (a, b)).getD a 0 =
      (analyzeSpringEdge labels (a, b)).getD b 0 := by
  unfold analyzeSpringEdge
  rw [getD_map_of_lt _ _ ha, getD_map_of_lt _ _ hb]
  by_cases h : labels.getD a 0 = labels.getD b 0 <;> simp [h]

theorem length_foldl_analyzeSpringEdge (edges : List (Nat × Nat)) (labels : List Nat) :
    (edges.foldl analyzeSpringEdge labels).length = labels.length := by
  induction edges generalizing labels with
  | nil => rfl
  | cons e t ih => rw [List.foldl_cons, ih, length_analyzeSpringEdge]

theorem foldl_analyzeSpringEdge_preserves_eq (edges : List (Nat × Nat))
    {labels : List Nat} {a b : Nat} (ha : a < labels.length) (hb : b < labels.length)
    (h : labels.getD a 0 = labels.getD b 0) :
    (edges.foldl analyzeSpringEdge labels).getD a 0 =
      (edges.foldl analyzeSpringEdge labels).getD b 0 := by
  induction edges generalizing labels with
  | nil => exact h
  | cons e t ih =>
      rw [List.foldl_cons]
      exact ih (by rw [length_analyzeSpringEdge]; exact ha)
        (by rw [length_analyzeSpringEdge]; exact hb)
        (analyzeSpringEdge_preserves_eq ha hb e h)

theorem foldl_analyzeSpringEdge_joins_mem (edges : List (Nat × Nat))
    {labels : List Nat} {a b : Nat} (hmem : (a, b) ∈ edges)
    (ha : a < labels.length) (hb : b < labels.length) :
    (edges.foldl analyzeSpringEdge labels).getD a 0 =
      (edges.foldl analyzeSpringEdge labels).getD b 0 := by
  induction edges generalizing labels with
  | nil => cases hmem
  | cons e t ih =>
      rw [List.foldl_cons]
      rcases List.mem_cons.mp hmem with heq | hmem'
      · subst heq
        exact foldl_analyzeSpringEdge_preserves_eq t
          (by rw [length_analyzeSpringEdge]; exact ha)
          (by rw [length_analyzeSpringEdge]; exact hb)
          (analyzeSpringEdge_joins ha hb)
      · exact ih hmem' (by rw [length_analyzeSpringEdge]; exact ha)
          (by rw [length_analyzeSpringEdge]; exact hb)

/-- Claim C3: for every non-deleted spring whose endpoints are valid point indices,
after a connected-component analysis pass the connected-component id of endpoint A
equals the connected-component id of endpoint B, so `Springs::GetConnectedComponentId`
(which reads endpoint A after asserting the agreement) is well-defined by reading
either endpoint. -/
theorem C3_endpoints_share_connected_component_id (springs : SpringsState)
    (points : PointsState) (s : Nat)
    (hlive : springs.IsDeleted s = false)
    (hs : s < springs.mEndpointsBuffer.length)
    (ha : springs.GetPointAIndex s < points.connectedComponentId.length)
    (hb : springs.GetPointBIndex s < points.connectedComponentId.length) :
    (RunConnectedComponentAnalysisPass points springs).GetConnectedComponentId
        (springs.GetPointAIndex s) =
      (RunConnectedComponentAnalysisPass points springs).GetConnectedComponentId
        (springs.GetPointBIndex s) ∧
    springs.GetConnectedComponentId s (RunConnectedComponentAnalysisPass points springs) =
      (RunConnectedComponentAnalysisPass points springs).GetConnectedComponentId
        (springs.GetPointBIndex s) := by
  have hmem : (springs.GetPointAIndex s, springs.GetPointBIndex s) ∈
      springs.liveSpringEdges := by
    unfold SpringsState.liveSpringEdges
    refine List.mem_map.mpr ⟨s, List.mem_filter.mpr ⟨List.mem_range.mpr hs, ?_⟩, rfl⟩
    simp only [SpringsState.IsDeleted] at hlive
    rw [hlive]
    rfl
  have hkey := @foldl_analyzeSpringEdge_joins_mem springs.liveSpringEdges
    (List.range points.connectedComponentId.length)
    (springs.GetPointAIndex s) (springs.GetPointBIndex s) hmem
    (by simpa using ha) (by simpa using hb)
  constructor
  · simpa only [RunConnectedComponentAnalysisPass, PointsState.GetConnectedComponentId,
      runConnectedComponentAnalysis] using hkey
  · simpa only [SpringsState.GetConnectedComponentId,
      RunConnectedComponentAnalysisPass, PointsState.GetConnectedComponentId,
      runConnectedComponentAnalysis] using hkey

/-- A concrete two-point container for witnesses: points of base material mass 1,
no offsets, component ids to be assigned by analysis. -/
def twoPointPoints : PointsState :=
  { materialMass := [1, 1]
    massToMaterialOffset := [0, 0]
    connectedComponentId := [0, 0]
    isDeleted := [false, false] }

/-- A concrete container with one live spring connecting points 0 and 1. -/
def oneSpringSprings : SpringsState :=
  { mkSprings 1 12 1 with
      mIsDeletedBuffer := [false]
      mEndpointsBuffer := [⟨0, 1⟩] }

/-- Claim C3 witness: the property evaluated on a concrete one-spring, two-point
graph. -/
theorem C3_endpoints_share_connected_component_id_witness :
    (RunConnectedComponentAnalysisPass twoPointPoints oneSpringSprings).GetConnectedComponentId
        (oneSpringSprings.GetPointAIndex 0) =
      (RunConnectedComponentAnalysisPass twoPointPoints oneSpringSprings).GetConnectedComponentId
        (oneSpringSprings.GetPointBIndex 0) ∧
    oneSpringSprings.GetConnectedComponentId 0
        (RunConnectedComponentAnalysisPass twoPointPoints oneSpringSprings) =
      (RunConnectedComponentAnalysisPass twoPointPoints oneSpringSprings).GetConnectedComponentId
        (oneSpringSprings.GetPointBIndex 0) :=
  C3_endpoints_share_connected_component_id oneSpringSprings twoPointPoints 0
    (by decide) (by decide) (by decide) (by decide)

theorem attachBomb_eq (springs : SpringsState) (points : PointsState) (bombMass : ℚ)
    (i : Nat) (hflag : springs.mIsBombAttachedBuffer.getD i false = false) :
    springs.AttachBomb i points bombMass =
      some
        ({ springs with
            mIsBombAttachedBuffer := springs.mIsBombAttachedBuffer.set i true },
          { points with
              massToMaterialOffset :=
                (points.massToMaterialOffset.set (springs.GetPointAIndex i)
                  bombMass).set (springs.GetPointBIndex i) bombMass }) := by
  unfold SpringsState.AttachBomb
  rw [if_pos hflag]
  simp [setMassToMaterialOffset_eq, SpringsState.GetPointAIndex,
    SpringsState.GetPointBIndex]

theorem detachBomb_eq (springs : SpringsState) (points : PointsState)
    (i : Nat) (hflag : springs.mIsBombAttachedBuffer.getD i false = true) :
    springs.DetachBomb i points =
      some
        ({ springs with
            mIsBombAttachedBuffer := springs.mIsBombAttachedBuffer.set i false },
          { points with
              massToMaterialOffset :=
                (points.massToMaterialOffset.set (springs.GetPointAIndex i)
                  0).set (springs.GetPointBIndex i) 0 }) := by
  unfold SpringsState.DetachBomb
  rw [if_pos hflag]
  simp [setMassToMaterialOffset_eq, SpringsState.GetPointAIndex,
    SpringsState.GetPointBIndex]

theorem getD_set_set_fst (l : List ℚ) (v w : ℚ) {a b : Nat} (ha : a < l.length) :
    ((l.set a v).set b w).getD a 0 = if a = b then w else v := by
  by_cases hab : a = b
  · subst hab
    rw [if_pos rfl]
    exact getD_set_self _ _ _ (by simpa using ha)
  · rw [if_neg hab, getD_set_ne _ _ _ (fun h => hab h.symm),
      getD_set_self _ _ _ ha]

/-- Claim C5 (amended): for a spring with no bomb attached, `AttachBomb` sets the
bomb-attached flag and sets the mass-to-material offset of both endpoints to the
configured bomb mass; `DetachBomb` then clears the flag and resets both endpoints'
offsets to zero. The attach-then-detach sequence therefore leaves both offsets at
zero, and restores both endpoints' masses exactly when both endpoints carried a zero
offset before the attach — `SetMassToMaterialOffset` sets, rather than increments,
the offset. -/
theorem C5_attach_then_detach_bomb (springs : SpringsState) (points : PointsState)
    (bombMass : ℚ) (i : Nat)
    (hflag : springs.IsBombAttached i = false)
    (hi : i < springs.mIsBombAttachedBuffer.length)
    (ha : springs.GetPointAIndex i < points.massToMaterialOffset.length)
    (hb : springs.GetPointBIndex i < points.massToMaterialOffset.length) :
    ((springs.AttachBomb i points bombMass).map fun r => r.1.IsBombAttached i)
        = some true ∧
    ((springs.AttachBomb i points bombMass).map fun r =>
        r.2.massToMaterialOffset.getD (springs.GetPointAIndex i) 0) = some bombMass ∧
    ((springs.AttachBomb i points bombMass).map fun r =>
        r.2.massToMaterialOffset.getD (springs.GetPointBIndex i) 0) = some bombMass ∧
    (((springs.AttachBomb i points bombMass).bind fun r => r.1.DetachBomb i r.2).map
        fun r => r.1.IsBombAttached i) = some false ∧
    (((springs.AttachBomb i points bombMass).bind fun r => r.1.DetachBomb i r.2).map
        fun r => r.2.massToMaterialOffset.getD (springs.GetPointAIndex i) 0)
        = some 0 ∧
    (((springs.AttachBomb i points bombMass).bind fun r => r.1.DetachBomb i r.2).map
        fun r => r.2.massToMaterialOffset.getD (springs.GetPointBIndex i) 0)
        = some 0 ∧
    (points.massToMaterialOffset.getD (springs.GetPointAIndex i) 0 = 0 →
      (((springs.AttachBomb i points bombMass).bind fun r => r.1.DetachBomb i r.2).map
          fun r => r.2.GetMass (springs.GetPointAIndex i)) =
        some (points.GetMass (springs.GetPointAIndex i))) ∧
    (points.massToMaterialOffset.getD (springs.GetPointBIndex i) 0 = 0 →
      (((springs.AttachBomb i points bombMass).bind fun r => r.1.DetachBomb i r.2).map
          fun r => r.2.GetMass (springs.GetPointBIndex i)) =
        some (points.GetMass (springs.GetPointBIndex i))) := by
  have hflag' : springs.mIsBombAttachedBuffer.getD i false = false := hflag
  have hAtt := attachBomb_eq springs points bombMass i hflag'
  have hflagAtt : (springs.mIsBombAttachedBuffer.set i true).getD i false = true :=
    getD_set_self _ _ _ (by simpa using hi)
  have hDet := detachBomb_eq
    { springs with mIsBombAttachedBuffer := springs.mIsBombAttachedBuffer.set i true }
    { points with
        massToMaterialOffset :=
          (points.massToMaterialOffset.set (springs.GetPointAIndex i)
            bombMass).set (springs.GetPointBIndex i) bombMass }
    i hflagAtt
  have hAB : ({ springs with
      mIsBombAttachedBuffer := springs.mIsBombAttachedBuffer.set i true } :
        SpringsState).GetPointAIndex i = springs.GetPointAIndex i := rfl
  have hBB : ({ springs with
      mIsBombAttachedBuffer := springs.mIsBombAttachedBuffer.set i true } :
        SpringsState).GetPointBIndex i = springs.GetPointBIndex i := rfl
  rw [hAB, hBB] at hDet
  have hlenA : springs.GetPointAIndex i <
      ((points.massToMaterialOffset.set (springs.GetPointAIndex i)
        bombMass).set (springs.GetPointBIndex i) bombMass).length := by
    simpa using ha
  have hlenB : springs.GetPointBIndex i <
      ((points.massToMaterialOffset.set (springs.GetPointAIndex i)
        bombMass).set (springs.GetPointBIndex i) bombMass).length := by
    simpa using hb
  refine ⟨?_, ?_, ?_, ?_, ?_, ?_, ?_, ?_⟩
  · rw [hAtt]
    simp only [Option.map_some']
    rw [SpringsState.IsBombAttached]
    rw [hflagAtt]
  · rw [hAtt]
    simp only [Option.map_some', Option.some.injEq]
    rw [getD_set_set_fst _ _ _ ha]
    split <;> rfl
  · rw [hAtt]
    simp only [Option.map_some', Option.some.injEq]
    exact getD_set_self _ _ _ (by simpa using hb)
  · rw [hAtt]
    simp only [Option.some_bind]
    rw [hDet]
    simp only [Option.map_some']
    rw [SpringsState.IsBombAttached]
    simp only []
    exact congrArg some (getD_set_self _ _ _ (by simpa using hi))
  · rw [hAtt]
    simp only [Option.some_bind]
    rw [hDet]
    simp only [Option.map_some', Option.some.injEq]
    rw [getD_set_set_fst _ _ _ (by simpa using ha)]
    split <;> rfl
  · rw [hAtt]
    simp only [Option.some_bind]
    rw [hDet]
    simp only [Option.map_some', Option.some.injEq]
    exact getD_set_self _ _ _ (by simpa using hb)
  · intro hzeroA
    rw [hAtt]
    simp only [Option.some_bind]
    rw [hDet]
    simp only [Option.map_some', Option.some.injEq]
    rw [PointsState.GetMass, PointsState.GetMass]
    simp only []
    rw [getD_set_set_fst _ _ _ (by simpa using ha), hzeroA]
    split <;> ring
  · intro hzeroB
    rw [hAtt]
    simp only [Option.some_bind]
    rw [hDet]
    simp only [Option.map_some', Option.some.injEq]
    rw [PointsState.GetMass, PointsState.GetMass]
    simp only []
    rw [getD_set_self _ _ _ (by simpa using hb), hzeroB]

/-- Claim C5 witness: on a one-spring, two-point container with zero initial offsets
and bomb mass 3, attaching sets the flag and attach-then-detach restores endpoint A's
mass. -/
theorem C5_attach_then_detach_bomb_witness :
    ((oneSpringSprings.AttachBomb 0 twoPointPoints 3).map
        fun r => r.1.IsBombAttached 0) = some true ∧
    (((oneSpringSprings.AttachBomb 0 twoPointPoints 3).bind
        fun r => r.1.DetachBomb 0 r.2).map
          fun r => r.2.GetMass (oneSpringSprings.GetPointAIndex 0)) =
      some (twoPointPoints.GetMass (oneSpringSprings.GetPointAIndex 0)) :=
  ⟨(C5_attach_then_detach_bomb oneSpringSprings twoPointPoints 3 0 rfl (by decide)
      (by decide) (by decide)).1,
    (C5_attach_then_detach_bomb oneSpringSprings twoPointPoints 3 0 rfl (by decide)
      (by decide) (by decide)).2.2.2.2.2.2.1 (by decide)⟩

/-- Three points of base material mass 10 with no offsets. -/
def sharedEndpointPoints : PointsState :=
  { materialMass := [10, 10, 10]
    massToMaterialOffset := [0, 0, 0]
    connectedComponentId := [0, 0, 0]
    isDeleted := [false, false, false] }

/-- Two live springs sharing endpoint 0: spring 0 joins points 0 and 1, spring 1 joins
points 0 and 2. -/
def sharedEndpointSprings : SpringsState :=
  { mkSprings 2 12 1 with
      mIsDeletedBuffer := [false, false]
      mEndpointsBuffer := [⟨0, 1⟩, ⟨0, 2⟩] }

/-- Claim C5 counterexample: with a bomb already attached to spring 0 (both endpoint
offsets 3), spring 1 — which has no bomb attached — shares endpoint 0; attaching a
bomb to spring 1 and then detaching it resets endpoint 0's offset to zero, so its mass
drops from 13 (shared bomb offset present) to 10 instead of being restored. The triple
below records (spring 1's flag before its attach, endpoint 0's mass before the
attach, endpoint 0's mass after attach-then-detach). -/
theorem C5_attach_then_detach_bomb_counterexample :
    ((sharedEndpointSprings.AttachBomb 0 sharedEndpointPoints 3).bind fun r1 =>
        (r1.1.AttachBomb 1 r1.2 3).bind fun r2 =>
          (r2.1.DetachBomb 1 r2.2).map fun r3 =>
            (r1.1.IsBombAttached 1, r1.2.GetMass 0, r3.2.GetMass 0))
      = some (false, 13, 10) ∧ (13 : ℚ) ≠ 10 := by
  refine ⟨?_, by norm_num⟩
  norm_num [sharedEndpointSprings, sharedEndpointPoints, mkSprings,
    SpringsState.AttachBomb, SpringsState.DetachBomb, SetMassToMaterialOffset,
    SpringsState.OnPointMassUpdated, SpringsState.IsBombAttached,
    SpringsState.GetPointAIndex, SpringsState.GetPointBIndex, PointsState.GetMass,
    List.replicate, List.range_succ, List.range_zero]

/-- Modelled from the spec: the water-drag force accumulation (§4.6 step 4) is code of
this repository that is not under src/ — its only trace under src/ is the changelog
(src/unnamed/part_000:50 and 5-6). Per §4.6 the drag force on a point is proportional
to the square of the point's velocity relative to the fluid and opposes it; in one
dimension along the relative-velocity direction: -/
def waterDragForce (dragCoefficient relativeVelocity : ℚ) : ℚ :=
  -(dragCoefficient * |relativeVelocity| * relativeVelocity)

/-- Modelled from the spec (§4.6 step 5): one explicit Euler velocity sub-step of a
point of the given mass under the water-drag force alone. -/
def eulerDragStep (dt dragCoefficient mass v : ℚ) : ℚ :=
  v + dt * waterDragForce dragCoefficient v / mass

/-- Claim C4 counterexample: the square drag law is quadratic at relative speed 10
(force magnitude 100 for unit drag coefficient), yet one explicit Euler sub-step with
unit timestep, coefficient and mass amplifies that speed from 10 to 90 — the law does
not remain stable at all relative speeds, exactly the instability the changelog entry
(src/unnamed/part_000:5-6) records as rectified. -/
theorem C4_square_drag_unstable_counterexample :
    |waterDragForce 1 10| = 1 * 10 ^ 2 ∧
    eulerDragStep 1 1 1 10 = -90 ∧
    ¬ |eulerDragStep 1 1 1 10| ≤ |(10 : ℚ)| := by
  refine ⟨?_, ?_, ?_⟩ <;> norm_num [waterDragForce, eulerDragStep]

/-- Claim C4 (amended): the accumulated water-drag force is proportional to the square
of the point's velocity relative to the fluid, but under the explicit Euler sub-step
this quadratic law keeps the relative speed non-increasing only while
`dt * c * |v| ≤ 2 * m`; at higher relative speeds the step amplifies the speed, the
instability rectified per the changelog. -/
theorem C4_quadratic_drag_stable_only_below_speed_bound (c v : ℚ) (hc : 0 ≤ c) :
    |waterDragForce c v| = c * v ^ 2 ∧
    ∀ dt m : ℚ, 0 < m → 0 ≤ dt → dt * c * |v| ≤ 2 * m →
      |eulerDragStep dt c m v| ≤ |v| := by
  constructor
  · rw [waterDragForce, abs_neg, abs_mul, abs_mul, abs_abs,
      abs_of_nonneg hc, mul_assoc, abs_mul_abs_self]
    ring
  · intro dt m hm hdt hbound
    have hstep : eulerDragStep dt c m v = v * (1 - dt * c * |v| / m) := by
      rw [eulerDragStep, waterDragForce]
      field_simp
      ring
    have hk0 : 0 ≤ dt * c * |v| / m :=
      div_nonneg (mul_nonneg (mul_nonneg hdt hc) (abs_nonneg v)) hm.le
    have hk2 : dt * c * |v| / m ≤ 2 := by
      rw [div_le_iff₀ hm]
      linarith
    have habs : |1 - dt * c * |v| / m| ≤ 1 := by
      rw [abs_le]
      constructor <;> linarith
    calc |eulerDragStep dt c m v| = |v| * |1 - dt * c * |v| / m| := by
          rw [hstep, abs_mul]
      _ ≤ |v| * 1 := mul_le_mul_of_nonneg_left habs (abs_nonneg v)
      _ = |v| := mul_one _

/-- Claim C4 witness: the amended property evaluated at drag coefficient 1 and
relative speed 1 with unit timestep and mass (inside the stability bound). -/
theorem C4_quadratic_drag_stable_only_below_speed_bound_witness :
    |waterDragForce 1 1| = 1 * 1 ^ 2 ∧ |eulerDragStep 1 1 1 1| ≤ |(1 : ℚ)| :=
  ⟨(C4_quadratic_drag_stable_only_below_speed_bound 1 1 (by norm_num)).1,
    (C4_quadratic_drag_stable_only_below_speed_bound 1 1 (by norm_num)).2 1 1
      (by norm_num) (by norm_num) (by norm_num)⟩

/-- Embeds `GameException` (thrown by src/GameLib/Utils.cpp): an error value carrying
its message. -/
structure GameException where
  message : String
deriving DecidableEq

/-- Embeds the anonymous-namespace `GetTextFileContents`
(src/GameLib/Utils.cpp:18-31): the file system is a map from filename to optional
contents; a file that cannot be opened raises a `GameException` naming it. -/
def GetTextFileContents (fileSystem : String → Option String) (filename : String) :
    Except GameException String :=
  match fileSystem filename with
  | none => .error ⟨"Cannot open file \"" ++ filename ++ "\""⟩
  | some contents => .ok contents

/-- Embeds `Utils::ParseJSONFile` (src/GameLib/Utils.cpp:34-46). The external
`picojson::parse` is modelled as a function returning a parse-error string (empty on
success) together with the parsed value, as its C++ interface does; a nonempty error
raises a `GameException` naming the file and the reason. -/
def ParseJSONFile {α : Type} (fileSystem : String → Option String)
    (picojsonParse : String → String × α) (filename : String) :
    Except GameException α :=
  match GetTextFileContents fileSystem filename with
  | .error e => .error e
  | .ok fileContents =>
    let parsed := picojsonParse fileContents
    if parsed.1 ≠ "" then
      .error ⟨"Error parsing JSON file \"" ++ filename ++ "\": " ++ parsed.1⟩
    else
      .ok parsed.2

/-- Claim C7: for every filename, `Utils::ParseJSONFile` either returns the parsed
JSON value of the file's contents, or fails with a `GameException` whose message names
the offending file and the reason, in exactly two failure cases — the file cannot be
opened, or the contents fail to parse; it never returns normally on malformed
input. -/
theorem C7_parse_json_file_two_failure_cases {α : Type}
    (fileSystem : String → Option String) (picojsonParse : String → String × α)
    (filename : String) :
    (fileSystem filename = none →
      ParseJSONFile fileSystem picojsonParse filename =
        .error ⟨"Cannot open file \"" ++ filename ++ "\""⟩) ∧
    (∀ contents, fileSystem filename = some contents →
      (picojsonParse contents).1 ≠ "" →
        ParseJSONFile fileSystem picojsonParse filename =
          .error ⟨"Error parsing JSON file \"" ++ filename ++ "\": " ++
            (picojsonParse contents).1⟩) ∧
    (∀ contents, fileSystem filename = some contents →
      (picojsonParse contents).1 = "" →
        ParseJSONFile fileSystem picojsonParse filename =
          .ok (picojsonParse contents).2) := by
  refine ⟨fun h => ?_, fun contents hc hne => ?_, fun contents hc he => ?_⟩
  · simp [ParseJSONFile, GetTextFileContents, h]
  · simp [ParseJSONFile, GetTextFileContents, hc, hne]
  · simp [ParseJSONFile, GetTextFileContents, hc, he]

/-- Claim C7 witness: the missing-file case evaluated on a concrete empty file system
and a trivial parser. -/
theorem C7_parse_json_file_two_failure_cases_witness :
    ParseJSONFile (fun _ => none) (fun _ => ("", (0 : Nat))) "materials.json" =
      .error ⟨"Cannot open file \"" ++ "materials.json" ++ "\""⟩ :=
  (C7_parse_json_file_two_failure_cases (fun _ => none) (fun _ => ("", (0 : Nat)))
    "materials.json").1 rfl

/-- Embeds `vec4f` (render color) with rational components. -/
structure vec4f where
  x : ℚ
  y : ℚ
  z : ℚ
  w : ℚ
deriving DecidableEq

/-- Embeds `StructuralMaterial::MaterialSoundType` (src/GameLib/Materials.h:24-30). -/
inductive StructuralMaterial.MaterialSoundType where
  | Cable
  | Glass
  | Metal
  | Wood
deriving DecidableEq

/-- Embeds `StructuralMaterial` (src/GameLib/Materials.h:15-56). -/
structure StructuralMaterial where
  Name : String
  Strength : ℚ
  Mass : ℚ
  Stiffness : ℚ
  RenderColor : vec4f
  IsHull : Bool
  MaterialSound : StructuralMaterial.MaterialSoundType
deriving DecidableEq

/-- Embeds `ElectricalMaterial::ElectricalElementType`
(src/GameLib/Materials.h:62-67). -/
inductive ElectricalMaterial.ElectricalElementType where
  | Lamp
  | Cable
  | Generator
deriving DecidableEq

/-- Embeds `ElectricalMaterial` (src/GameLib/Materials.h:58-88). -/
structure ElectricalMaterial where
  Name : String
  ElectricalType : ElectricalMaterial.ElectricalElementType
  IsSelfPowered : Bool
deriving DecidableEq

/-- Claim C8: the material value objects have exactly the shapes the spec lists — the
structural sound type is drawn from exactly Cable, Glass, Metal, Wood (exhaustive and
pairwise distinct), the electrical element type from exactly Lamp, Cable, Generator,
and every combination of the listed fields determines exactly one material record of
each kind. -/
theorem C8_material_value_object_shapes :
    (∀ t : StructuralMaterial.MaterialSoundType,
      t = .Cable ∨ t = .Glass ∨ t = .Metal ∨ t = .Wood) ∧
    ([StructuralMaterial.MaterialSoundType.Cable, .Glass, .Metal, .Wood].Nodup) ∧
    (∀ e : ElectricalMaterial.ElectricalElementType,
      e = .Lamp ∨ e = .Cable ∨ e = .Generator) ∧
    ([ElectricalMaterial.ElectricalElementType.Lamp, .Cable, .Generator].Nodup) ∧
    (∀ (name : String) (strength mass stiffness : ℚ) (renderColor : vec4f)
        (isHull : Bool) (materialSound : StructuralMaterial.MaterialSoundType),
      ∃! m : StructuralMaterial, m.Name = name ∧ m.Strength = strength ∧
        m.Mass = mass ∧ m.Stiffness = stiffness ∧ m.RenderColor = renderColor ∧
        m.IsHull = isHull ∧ m.MaterialSound = materialSound) ∧
    (∀ (name : String) (electricalType : ElectricalMaterial.ElectricalElementType)
        (isSelfPowered : Bool),
      ∃! m : ElectricalMaterial, m.Name = name ∧ m.ElectricalType = electricalType ∧
        m.IsSelfPowered = isSelfPowered) := by
  refine ⟨fun t => ?_, by decide, fun e => ?_, by decide, ?_, ?_⟩
  · cases t <;> simp
  · cases e <;> simp
  · intro name strength mass stiffness renderColor isHull materialSound
    refine ⟨⟨name, strength, mass, stiffness, renderColor, isHull, materialSound⟩,
      ⟨rfl, rfl, rfl, rfl, rfl, rfl, rfl⟩, ?_⟩
    rintro ⟨n, st, ms, sf, rc, ih, snd⟩ ⟨h1, h2, h3, h4, h5, h6, h7⟩
    simp_all
  · intro name electricalType isSelfPowered
    refine ⟨⟨name, electricalType, isSelfPowered⟩, ⟨rfl, rfl, rfl⟩, ?_⟩
    rintro ⟨n, et, sp⟩ ⟨h1, h2, h3⟩
    simp_all

/-- Claim C8 witness: a concrete structural material record exists and is unique for a
concrete combination of field values. -/
theorem C8_material_value_object_shapes_witness :
    ∃! m : StructuralMaterial, m.Name = "Iron" ∧ m.Strength = 1 ∧
      m.Mass = 2 ∧ m.Stiffness = 3 ∧ m.RenderColor = ⟨0, 0, 0, 1⟩ ∧
      m.IsHull = true ∧ m.MaterialSound = .Metal :=
  C8_material_value_object_shapes.2.2.2.2.1 "Iron" 1 2 3 ⟨0, 0, 0, 1⟩ true .Metal

end FloatingSandbox
